import Mathlib

/-!
Verification development for the tak-server-mcp repository.

The embedding below translates, function by function, the parts of the
TypeScript source that the verified properties speak about:

* JavaScript numeric semantics used by the code (`Math.round`, `Math.trunc`,
  the `%` remainder, `parseFloat`, the `||` default idiom, `NaN`);
* `TAKServerClient.parseCotEvent` and the entity transform of
  `TAKServerClient.getEntity` / `getEntities` (src/clients/tak-server.ts);
* the per-uid latest-event map built inside `TAKServerClient.getEntities`;
* the result pipeline of `findNearestTool.handler`
  (src/tools/geospatial/find-nearest.ts, lines 120-151);
* the four analysis passes of `analyzeMovementTool.handler`
  (src/tools/geospatial/analyze-movement.ts, lines 104-248);
* the shape validation of `createGeofenceTool.handler`
  (src/tools/geospatial/create-geofence.ts, lines 124-188);
* the geofence transition state machine, which exists only in the spec
  (no monitoring code ships in the repository) and is modelled from it;
* the turf.js geometry used by `calculateDistanceTool.handler`
  (`turf.distance`, `turf.bearing`, `degreesToRadians`, `radiansToDegrees`),
  over the real numbers.

Numbers that the source manipulates exactly (ids, times, coordinates fed to
round/filter/sort logic) are embedded as rationals; the trigonometric
geometry of turf.js is embedded over the reals.  Where a tool handler calls
into turf for a distance or bearing and only the surrounding logic is under
scrutiny, the metric is taken as an explicit function parameter.
-/

set_option autoImplicit false

/-! ## JavaScript numeric semantics -/

/-- JS Math.trunc on rationals: rounds toward zero. -/
def jsTrunc (q : ℚ) : ℤ := if 0 ≤ q then ⌊q⌋ else ⌈q⌉

/-- The JS remainder operator x % n (truncated-division remainder). -/
def jsModQ (x n : ℚ) : ℚ := x - n * (jsTrunc (x / n) : ℚ)

/-- JS Math.round: round half toward positive infinity, i.e. floor(x + 1/2). -/
def jsRound (q : ℚ) : ℤ := ⌊q + 1/2⌋

/-- A JS number as the source observes it: an actual (rational) value or NaN. -/
inductive JSNum where
  | num (q : ℚ)
  | nan
deriving DecidableEq, Repr

/-- parseFloat applied to an attribute that is either a parsed numeric value
or absent (`parseFloat(undefined)` is NaN). -/
def parseFloatAttr : Option ℚ → JSNum
  | some q => .num q
  | none => .nan

/-- The `v || d` defaulting idiom on a JS number: NaN and 0 are falsy, so both
fall back to the default. -/
def jsOrNum : JSNum → ℚ → ℚ
  | .num q, d => if q = 0 then d else q
  | .nan, d => d

/-- `new Date(attr).getTime()` for a time attribute: epoch milliseconds, or
NaN for an absent attribute (Invalid Date). -/
def parseDateAttr : Option ℚ → JSNum
  | some t => .num t
  | none => .nan

/-- The JS `<` comparison on numbers: false whenever either side is NaN. -/
def jsNumLt : JSNum → JSNum → Bool
  | .num x, .num y => decide (x < y)
  | _, _ => false

/-- The `v || d` defaulting idiom for an optional natural-number parameter
(`params.maxResults || 10`): absent and 0 both fall back to the default. -/
def jsOrNat : Option ℕ → ℕ → ℕ
  | some n, d => if n = 0 then d else n
  | none, d => d

/-- JS Math.min on two numbers. -/
def ratMin (a b : ℚ) : ℚ := if a ≤ b then a else b

/-- JS Math.max on two numbers. -/
def ratMax (a b : ℚ) : ℚ := if a ≤ b then b else a

/-! ## Event normalization: TAKServerClient.parseCotEvent
(src/clients/tak-server.ts, lines 182-199) -/

/-- The point attributes of a raw CoT event as handed to `parseCotEvent` by
the XML parser: each attribute is a parsed numeric value or absent. -/
structure RawCotPoint where
  lat : Option ℚ
  lon : Option ℚ
  hae : Option ℚ
  ce : Option ℚ
  le : Option ℚ
deriving DecidableEq, Repr

/-- A raw CoT event as handed to `parseCotEvent`: string attributes are
present or absent, time attributes carry epoch milliseconds when present. -/
structure RawCotEvent where
  uid : Option String
  type : Option String
  time : Option ℚ
  start : Option ℚ
  stale : Option ℚ
  how : Option String
  point : RawCotPoint
deriving DecidableEq, Repr

/-- The point of a parsed CotEvent: lat/lon go through bare parseFloat (so
they can be NaN), while hae/ce/le go through `parseFloat(x) || 999999`. -/
structure CotPoint where
  lat : JSNum
  lon : JSNum
  hae : ℚ
  ce : ℚ
  le : ℚ
deriving DecidableEq, Repr

/-- A parsed CotEvent as produced by `TAKServerClient.parseCotEvent`. -/
structure CotEvent where
  uid : Option String
  type : Option String
  time : JSNum
  start : JSNum
  stale : JSNum
  how : Option String
  point : CotPoint
deriving DecidableEq, Repr

/-- `TAKServerClient.parseCotEvent` (src/clients/tak-server.ts 182-199): a
total transform; fields pass through unvalidated, and hae/ce/le are
defaulted to 999999 via `parseFloat(...) || 999999`. -/
def parseCotEvent (e : RawCotEvent) : CotEvent :=
  { uid := e.uid
    type := e.type
    time := parseDateAttr e.time
    start := parseDateAttr e.start
    stale := parseDateAttr e.stale
    how := e.how
    point :=
      { lat := parseFloatAttr e.point.lat
        lon := parseFloatAttr e.point.lon
        hae := jsOrNum (parseFloatAttr e.point.hae) 999999
        ce := jsOrNum (parseFloatAttr e.point.ce) 999999
        le := jsOrNum (parseFloatAttr e.point.le) 999999 } }

/-- The altitude field of the entity transform in `TAKServerClient.getEntity`
(src/clients/tak-server.ts 388-392) and `getEntities` (line 341):
`alt: event.point.hae !== 999999 ? event.point.hae : undefined`. -/
def entityAlt (hae : ℚ) : Option ℚ :=
  if hae ≠ 999999 then some hae else none

/-! ## Entity state map: TAKServerClient.getEntities
(src/clients/tak-server.ts, lines 325-362) -/

/-- One step of the per-uid dedup loop in `getEntities`: the event is stored
iff no entry exists for its uid or its time is strictly newer than the stored
entry's time (`!entitiesMap.has(uid) || new Date(event.time) > new
Date(stored.lastUpdate)`). The JS Map is embedded as a function from the
(possibly absent) uid to the stored event. -/
def upsertEntity (m : Option String → Option CotEvent) (e : CotEvent) :
    Option String → Option CotEvent :=
  match m e.uid with
  | none => fun k => if k = e.uid then some e else m k
  | some s =>
      if jsNumLt s.time e.time then fun k => if k = e.uid then some e else m k
      else m

/-- The entities map built by the loop in `getEntities` over the fetched
event list, in delivery order. -/
def entitiesMapOf (events : List CotEvent) : Option String → Option CotEvent :=
  events.foldl upsertEntity (fun _ => none)

/-! ## Nearest-entity pipeline: findNearestTool.handler
(src/tools/geospatial/find-nearest.ts, lines 120-151) -/

/-- An entity as consumed by the nearest pipeline (uid plus location). -/
structure NearEntity where
  uid : String
  lat : ℚ
  lon : ℚ
deriving DecidableEq, Repr

/-- One result row of the pipeline: `distance: Math.round(distance)`,
`bearing: Math.round(bearing)` (find-nearest.ts 126-140). -/
structure NearItem where
  uid : String
  distance : ℤ
  bearing : ℤ
deriving DecidableEq, Repr

/-- The row built for one entity; `d` and `brg` are the turf distance and
bearing from the reference point (metric passed explicitly, see header). -/
def nearItemOf (d brg : NearEntity → ℚ) (e : NearEntity) : NearItem :=
  { uid := e.uid, distance := jsRound (d e), bearing := jsRound (brg e) }

/-- `entitiesWithDistance`: the map step of the pipeline (lines 121-141). -/
def withDistances (d brg : NearEntity → ℚ) (es : List NearEntity) : List NearItem :=
  es.map (nearItemOf d brg)

/-- The `if (params.maxDistance) results.filter(item => item.distance <=
params.maxDistance)` step (lines 144-147): absent or 0 (falsy) means no
filtering; the comparison uses the rounded integer distance. -/
def filterByMaxDistance (maxD : Option ℚ) (items : List NearItem) : List NearItem :=
  match maxD with
  | none => items
  | some md => if md = 0 then items else items.filter (fun i => (i.distance : ℚ) ≤ md)

/-- Insertion into a run already sorted by rounded distance, after every
element whose distance does not exceed the inserted one. -/
def insertByDistance (x : NearItem) : List NearItem → List NearItem
  | [] => [x]
  | y :: ys =>
      if y.distance ≤ x.distance then y :: insertByDistance x ys
      else x :: y :: ys

/-- `results.sort((a, b) => a.distance - b.distance)` (line 150): JS
Array.prototype.sort is a stable sort, so elements with equal rounded
distance keep their relative input order; left-to-right insertion after all
not-greater elements computes exactly that stable result. -/
def sortByDistance (l : List NearItem) : List NearItem :=
  l.foldl (fun acc x => insertByDistance x acc) []

/-- The full result pipeline of `findNearestTool.handler` on the filtered
entity list: map to rounded rows, apply the maxDistance cutoff, sort by
rounded distance, truncate to `params.maxResults || 10` (lines 120-151). -/
def findNearestResults (d brg : NearEntity → ℚ) (maxD : Option ℚ)
    (maxR : Option ℕ) (es : List NearEntity) : List NearItem :=
  (sortByDistance (filterByMaxDistance maxD (withDistances d brg es))).take
    (jsOrNat maxR 10)

/-! ## Movement analysis: analyzeMovementTool.handler
(src/tools/geospatial/analyze-movement.ts, lines 104-248) -/

/-- One track position: `time` in epoch milliseconds (the source divides
differences by 1000 to get seconds), plus coordinates. -/
structure TrackPos where
  time : ℚ
  lat : ℚ
  lon : ℚ
deriving DecidableEq, Repr

/-- The consecutive pairs `(positions[i-1], positions[i])` that every
analysis loop (`for i = 1; i < positions.length; i++`) walks. -/
def consecutivePairs (l : List TrackPos) : List (TrackPos × TrackPos) :=
  l.zip l.tail

/-- Result of the speed analysis (lines 124-133). -/
structure SpeedAnalysis where
  averageSpeed : ℚ
  maxSpeed : ℚ
  minSpeed : ℚ
  totalDistance : ℚ
deriving DecidableEq, Repr

/-- The per-pair speed samples of the speed loop (lines 111-122): pairs with
`timeDiff > 0` contribute `(distance / timeDiff) * 3.6` and their distance;
other pairs are skipped. -/
def speedSteps (dist : TrackPos → TrackPos → ℚ) :
    List (TrackPos × TrackPos) → List (ℚ × ℚ)
  | [] => []
  | pq :: rest =>
      let d := dist pq.1 pq.2
      let dt := (pq.2.time - pq.1.time) / 1000
      if 0 < dt then (d / dt * (36 / 10), d) :: speedSteps dist rest
      else speedSteps dist rest

/-- The speed analysis pass (lines 107-134): average/max/min of the sampled
speeds (0 on an empty sample list) and the accumulated distance. -/
def speedPass (dist : TrackPos → TrackPos → ℚ) (positions : List TrackPos) :
    SpeedAnalysis :=
  let steps := speedSteps dist (consecutivePairs positions)
  let speeds := steps.map Prod.fst
  { averageSpeed := if speeds.length = 0 then 0 else speeds.sum / speeds.length
    maxSpeed := match speeds with | [] => 0 | h :: t => t.foldl ratMax h
    minSpeed := match speeds with | [] => 0 | h :: t => t.foldl ratMin h
    totalDistance := (steps.map Prod.snd).sum }

/-- Result of the pattern analysis (lines 163-168); the bounding box is
`[minLon, minLat, maxLon, maxLat]` as produced by turf.bbox. -/
structure PatternAnalysis where
  movementType : String
  totalHeadingChange : ℚ
  pathLength : ℚ
  bboxMinLon : ℚ
  bboxMinLat : ℚ
  bboxMaxLon : ℚ
  bboxMaxLat : ℚ
deriving DecidableEq, Repr

/-- Normalization of one heading delta (lines 150-153): two sequential
corrections, `if (change > 180) change -= 360; if (change < -180) change += 360`. -/
def normalizeHeadingChange (c : ℚ) : ℚ :=
  let c1 := if c > 180 then c - 360 else c
  if c1 < -180 then c1 + 360 else c1

/-- The pattern analysis pass (lines 137-169): forward bearings per pair,
normalized heading deltas, circular iff the absolute accumulated turn
exceeds 300, path length as the segment-distance sum (turf.length in meters)
times 1000 as in the source, and the track bounding box. -/
def patternPass (dist brg : TrackPos → TrackPos → ℚ) (positions : List TrackPos) :
    PatternAnalysis :=
  let headings := (consecutivePairs positions).map (fun pq => brg pq.1 pq.2)
  let headingChanges :=
    (headings.zip headings.tail).map (fun hh => normalizeHeadingChange (hh.2 - hh.1))
  let total := headingChanges.sum
  let lons := positions.map TrackPos.lon
  let lats := positions.map TrackPos.lat
  { movementType := if |total| > 300 then "circular" else "linear"
    totalHeadingChange := total
    pathLength := ((consecutivePairs positions).map (fun pq => dist pq.1 pq.2)).sum * 1000
    bboxMinLon := match lons with | [] => 0 | h :: t => t.foldl ratMin h
    bboxMinLat := match lats with | [] => 0 | h :: t => t.foldl ratMin h
    bboxMaxLon := match lons with | [] => 0 | h :: t => t.foldl ratMax h
    bboxMaxLat := match lats with | [] => 0 | h :: t => t.foldl ratMax h }

/-- The in-progress candidate stop carried by the stop loop (lines 177-204):
creation records the previous point and its time; each close pair appends
the newer point and advances the end time. -/
structure StopCandidate where
  startTime : ℚ
  endTime : ℚ
  positions : List TrackPos
deriving DecidableEq, Repr

/-- A reported stop (lines 196-201): duration in seconds and the turf.center
of the candidate positions, which is the midpoint of their bounding box. -/
structure StopRecord where
  startTime : ℚ
  endTime : ℚ
  duration : ℚ
  centerLon : ℚ
  centerLat : ℚ
deriving DecidableEq, Repr

/-- turf.center of a point collection: the center of its bounding box. -/
def turfCenterOf (ps : List TrackPos) : ℚ × ℚ :=
  let lons := ps.map TrackPos.lon
  let lats := ps.map TrackPos.lat
  let minLon := match lons with | [] => 0 | h :: t => t.foldl ratMin h
  let maxLon := match lons with | [] => 0 | h :: t => t.foldl ratMax h
  let minLat := match lats with | [] => 0 | h :: t => t.foldl ratMin h
  let maxLat := match lats with | [] => 0 | h :: t => t.foldl ratMax h
  ((minLon + maxLon) / 2, (minLat + maxLat) / 2)

/-- The stop record promoted from a candidate (lines 195-201). -/
def stopRecordOf (c : StopCandidate) : StopRecord :=
  { startTime := c.startTime
    endTime := c.endTime
    duration := (c.endTime - c.startTime) / 1000
    centerLon := (turfCenterOf c.positions).1
    centerLat := (turfCenterOf c.positions).2 }

/-- The stop-detection loop (lines 179-205), literally: a pair closer than
50 m opens or extends the candidate; a far pair closes it, promoting it iff
its duration reaches 300 s. A candidate still open when the pair list ends
is discarded with the loop, exactly as in the source. -/
def stopsLoop (dist : TrackPos → TrackPos → ℚ) :
    List (TrackPos × TrackPos) → Option StopCandidate → List StopRecord
  | [], _ => []
  | pq :: rest, cur =>
      if dist pq.1 pq.2 < 50 then
        match cur with
        | none =>
            stopsLoop dist rest
              (some { startTime := pq.1.time, endTime := pq.2.time
                      positions := [pq.1, pq.2] })
        | some c =>
            stopsLoop dist rest
              (some { c with endTime := pq.2.time, positions := c.positions ++ [pq.2] })
      else
        match cur with
        | none => stopsLoop dist rest none
        | some c =>
            if (c.endTime - c.startTime) / 1000 ≥ 300 then
              stopRecordOf c :: stopsLoop dist rest none
            else
              stopsLoop dist rest none

/-- Result of the stop analysis (lines 207-211). -/
structure StopAnalysis where
  stops : List StopRecord
  totalStops : ℕ
  totalStopTime : ℚ
deriving DecidableEq, Repr

/-- The stop analysis pass (lines 172-212). -/
def stopsPass (dist : TrackPos → TrackPos → ℚ) (positions : List TrackPos) :
    StopAnalysis :=
  let s := stopsLoop dist (consecutivePairs positions) none
  { stops := s
    totalStops := s.length
    totalStopTime := (s.map StopRecord.duration).sum }

/-- One flagged anomaly (lines 232-238). -/
structure AnomalyRecord where
  time : ℚ
  value : ℚ
  threshold : ℚ
deriving DecidableEq, Repr

/-- Result of the anomaly analysis (lines 244-247). -/
structure AnomalyAnalysis where
  anomalies : List AnomalyRecord
  totalAnomalies : ℕ
deriving DecidableEq, Repr

/-- The speed sweep of the anomaly loop (lines 223-241): pairs with
`timeDiff > 0` whose speed exceeds the threshold are flagged. -/
def anomalySweep (dist : TrackPos → TrackPos → ℚ) (speedThreshold : ℚ) :
    List (TrackPos × TrackPos) → List AnomalyRecord
  | [] => []
  | pq :: rest =>
      let d := dist pq.1 pq.2
      let dt := (pq.2.time - pq.1.time) / 1000
      if 0 < dt then
        let sp := d / dt * (36 / 10)
        if sp > speedThreshold then
          { time := pq.2.time, value := sp, threshold := speedThreshold } ::
            anomalySweep dist speedThreshold rest
        else anomalySweep dist speedThreshold rest
      else anomalySweep dist speedThreshold rest

/-- The anomaly pass (lines 215-248): it reads `analysis.speedAnalysis`, so
its speed sweep runs only when the speed analysis was produced (with the
threshold `averageSpeed * (1 + anomalyThreshold)`); the result object is
built either way. -/
def anomalyPass (dist : TrackPos → TrackPos → ℚ) (speedA : Option SpeedAnalysis)
    (anomalyThreshold : ℚ) (positions : List TrackPos) : AnomalyAnalysis :=
  match speedA with
  | none => { anomalies := [], totalAnomalies := 0 }
  | some sa =>
      let found := anomalySweep dist (sa.averageSpeed * (1 + anomalyThreshold))
        (consecutivePairs positions)
      { anomalies := found, totalAnomalies := found.length }

/-- The selectable analysis kinds (`analysisType` enum, lines 31-39). -/
inductive AnalysisType where
  | speed
  | pattern
  | anomaly
  | prediction
  | stops
deriving DecidableEq, Repr

/-- The accumulated analysis object (lines 93-102). -/
structure MovementAnalysis where
  speedAnalysis : Option SpeedAnalysis
  patternAnalysis : Option PatternAnalysis
  stopAnalysis : Option StopAnalysis
  anomalyAnalysis : Option AnomalyAnalysis
deriving DecidableEq, Repr

/-- The analysis dispatch of `analyzeMovementTool.handler` (lines 104-248):
the passes run in source order (speed, pattern, stops, anomaly), each gated
on membership in `analysisTypes`, mutating the shared `analysis` object; the
anomaly pass reads the speed field of that object. -/
def analyzeMovement (dist brg : TrackPos → TrackPos → ℚ)
    (analysisTypes : List AnalysisType) (anomalyThreshold : ℚ)
    (positions : List TrackPos) : MovementAnalysis :=
  let a0 : MovementAnalysis :=
    { speedAnalysis := none, patternAnalysis := none
      stopAnalysis := none, anomalyAnalysis := none }
  let a1 :=
    if analysisTypes.contains .speed then
      { a0 with speedAnalysis := some (speedPass dist positions) }
    else a0
  let a2 :=
    if analysisTypes.contains .pattern then
      { a1 with patternAnalysis := some (patternPass dist brg positions) }
    else a1
  let a3 :=
    if analysisTypes.contains .stops then
      { a2 with stopAnalysis := some (stopsPass dist positions) }
    else a2
  if analysisTypes.contains .anomaly then
    { a3 with
      anomalyAnalysis :=
        some (anomalyPass dist a3.speedAnalysis anomalyThreshold positions) }
  else a3

/-! ## Geofence shape validation: createGeofenceTool.handler
(src/tools/geospatial/create-geofence.ts, lines 124-188) -/

/-- The geofence shape discriminator (`shape.type`). -/
inductive GeofenceShapeType where
  | circle
  | polygon
  | rectangle
deriving DecidableEq, Repr

/-- The `shape` parameter object of a geofence-creation request. -/
structure GeofenceShapeParams where
  type : GeofenceShapeType
  center : Option (ℚ × ℚ)
  radius : Option ℚ
  vertices : Option (List (ℚ × ℚ))
  width : Option ℚ
  height : Option ℚ
deriving DecidableEq, Repr

/-- JS falsiness of an optional numeric parameter: absent (undefined) and 0
are falsy, every other number is truthy. -/
def jsFalsyNum : Option ℚ → Bool
  | none => true
  | some q => q = 0

/-- The shape validation performed by the `switch (params.shape.type)` of
`createGeofenceTool.handler` (lines 124-188): a thrown error aborts creation
with a failure result; otherwise the geofence is built and sent. Note the
checks are JS falsiness tests (`!params.shape.radius` etc.), not sign
checks. -/
def createGeofenceShapeCheck (s : GeofenceShapeParams) : Except String Unit :=
  match s.type with
  | .circle =>
      if s.center.isNone || jsFalsyNum s.radius then
        .error "Circle geofence requires center and radius"
      else .ok ()
  | .polygon =>
      match s.vertices with
      | none => .error "Polygon geofence requires at least 3 vertices"
      | some vs =>
          if vs.length < 3 then .error "Polygon geofence requires at least 3 vertices"
          else .ok ()
  | .rectangle =>
      if s.center.isNone || jsFalsyNum s.width || jsFalsyNum s.height then
        .error "Rectangle geofence requires center, width, and height"
      else .ok ()

/-! ## Geofence transition machine

No geofence monitoring code ships in the repository: `createGeofenceTool`
only declares the trigger schema (create-geofence.ts 62-110) and emits the
fence as a CoT drawing event. The state machine below is therefore modelled
from the spec. -/

/-- An emitted geofence alert. -/
inductive GeofenceEvent where
  | entry
  | exitZone
  | dwell
deriving DecidableEq, Repr

/-- The trigger configuration of a geofence: entry/exit alert switches and
the optional dwell threshold (seconds), per the `triggers` schema. -/
structure GeofenceTriggers where
  onEntry : Bool
  onExit : Bool
  onDwell : Option ℚ
deriving DecidableEq, Repr

/-- Modelled from the spec: the per-(geofence, entity) containment state of
section 4.4 - `inside`, the entry instant backing the dwell timer, and
whether the dwell alert fired in the current inside period. -/
structure GeofenceEntityState where
  inside : Bool
  enteredAt : Option ℚ
  dwellFired : Bool
deriving DecidableEq, Repr

/-- The initial per-pair state: outside, no dwell timer. -/
def geofenceInit : GeofenceEntityState :=
  { inside := false, enteredAt := none, dwellFired := false }

/-- Modelled from the spec: one transition of the section 4.4 state machine
on a report (containment verdict, observation time). OUTSIDE to INSIDE fires
`onEntry` if enabled and starts the dwell timer; INSIDE to OUTSIDE fires
`onExit` if enabled and clears it; while INSIDE, the dwell alert fires once
the elapsed time reaches the threshold, at most once per inside period. -/
def geofenceStep (trig : GeofenceTriggers) (st : GeofenceEntityState)
    (rep : Bool × ℚ) : GeofenceEntityState × List GeofenceEvent :=
  if rep.1 then
    if st.inside then
      match trig.onDwell, st.enteredAt with
      | some thr, some t0 =>
          if ¬ st.dwellFired ∧ thr ≤ rep.2 - t0 then
            ({ st with dwellFired := true }, [.dwell])
          else (st, [])
      | _, _ => (st, [])
    else
      ({ inside := true, enteredAt := some rep.2, dwellFired := false },
        if trig.onEntry then [.entry] else [])
  else
    if st.inside then
      ({ inside := false, enteredAt := none, dwellFired := false },
        if trig.onExit then [.exitZone] else [])
    else (st, [])

/-- Modelled from the spec: running the machine over a report sequence,
collecting the emitted alerts in order. -/
def geofenceRun (trig : GeofenceTriggers) (st : GeofenceEntityState) :
    List (Bool × ℚ) → GeofenceEntityState × List GeofenceEvent
  | [] => (st, [])
  | r :: rs =>
      let step := geofenceStep trig st r
      let rest := geofenceRun trig step.1 rs
      (rest.1, step.2 ++ rest.2)

/-- The alert trace of a single entity against one geofence, from the
initial outside state. -/
def geofenceTrace (trig : GeofenceTriggers) (reps : List (Bool × ℚ)) :
    List GeofenceEvent :=
  (geofenceRun trig geofenceInit reps).2

/-- Well-formedness scanner for an alert trace, carrying (inside, dwell
still available): an exit is legal only with an unmatched open entry, a
dwell only inside and at most once since that entry. -/
def wfGeofenceTrace : Bool → Bool → List GeofenceEvent → Bool
  | _, _, [] => true
  | i, d, e :: t =>
      match e with
      | .entry => !i && wfGeofenceTrace true true t
      | .exitZone => i && wfGeofenceTrace false true t
      | .dwell => i && d && wfGeofenceTrace true false t

/-! ## turf.js geometry over the reals
(used by calculateDistanceTool.handler, src/tools/geospatial/calculate-distance.ts 115-137) -/

/-- JS Math.trunc on reals: rounds toward zero. -/
noncomputable def jsTruncR (r : ℝ) : ℤ := if 0 ≤ r then ⌊r⌋ else ⌈r⌉

/-- The JS remainder operator x % n on reals. -/
noncomputable def jsModR (x n : ℝ) : ℝ := x - n * (jsTruncR (x / n) : ℝ)

/-- turf helper `degreesToRadians`: `(degrees % 360) * PI / 180`. -/
noncomputable def degreesToRadians (d : ℝ) : ℝ :=
  jsModR d 360 * Real.pi / 180

/-- turf helper `radiansToDegrees`: `(radians % (2 * PI)) * 180 / PI`. -/
noncomputable def radiansToDegrees (r : ℝ) : ℝ :=
  jsModR r (2 * Real.pi) * 180 / Real.pi

/-- turf `earthRadius` constant (meters). -/
def earthRadius : ℝ := 6371008.8

/-- turf `radiansToLength` with meter units: `radians * earthRadius`. -/
noncomputable def radiansToLengthMeters (r : ℝ) : ℝ := r * earthRadius

/-- A geographic point as the tool handlers hold it: latitude and longitude
in degrees. -/
structure GeoPoint where
  lat : ℝ
  lon : ℝ

/-- JS Math.atan2 (for finite real arguments). -/
noncomputable def mathAtan2 (y x : ℝ) : ℝ :=
  if 0 < x then Real.arctan (y / x)
  else if x < 0 then
    (if 0 ≤ y then Real.arctan (y / x) + Real.pi else Real.arctan (y / x) - Real.pi)
  else
    (if 0 < y then Real.pi / 2 else if y < 0 then -(Real.pi / 2) else 0)

/-- turf.distance in meters: the haversine formula as written in turf,
`a = sin(dLat/2)^2 + sin(dLon/2)^2 * cos(lat1) * cos(lat2)` and
`radiansToLength(2 * atan2(sqrt(a), sqrt(1 - a)))`. -/
noncomputable def turfDistanceMeters (p q : GeoPoint) : ℝ :=
  let dLat := degreesToRadians (q.lat - p.lat)
  let dLon := degreesToRadians (q.lon - p.lon)
  let lat1 := degreesToRadians p.lat
  let lat2 := degreesToRadians q.lat
  let a := Real.sin (dLat / 2) ^ 2 +
    Real.sin (dLon / 2) ^ 2 * Real.cos lat1 * Real.cos lat2
  radiansToLengthMeters (2 * mathAtan2 (Real.sqrt a) (Real.sqrt (1 - a)))

/-- turf.bearing: forward azimuth in degrees,
`atan2(sin(lon2-lon1)*cos(lat2), cos(lat1)*sin(lat2) -
sin(lat1)*cos(lat2)*cos(lon2-lon1))` converted by `radiansToDegrees`. -/
noncomputable def turfBearing (p q : GeoPoint) : ℝ :=
  let lon1 := degreesToRadians p.lon
  let lon2 := degreesToRadians q.lon
  let lat1 := degreesToRadians p.lat
  let lat2 := degreesToRadians q.lat
  let a := Real.sin (lon2 - lon1) * Real.cos lat2
  let b := Real.cos lat1 * Real.sin lat2 -
    Real.sin lat1 * Real.cos lat2 * Real.cos (lon2 - lon1)
  radiansToDegrees (mathAtan2 a b)

/-- The reported back-bearing of `calculateDistanceTool.handler` (line 136):
`(bearing + 180) % 360`. -/
noncomputable def backBearing (p q : GeoPoint) : ℝ :=
  jsModR (turfBearing p q + 180) 360

/-! ## Concrete inputs used by individual claims -/

/-- A position report for uid "u" observed at t = 5 with lat 1. -/
def cotTieA : CotEvent :=
  { uid := some "u", type := some "a-f-G", time := .num 5, start := .num 5
    stale := .num 9, how := some "m-g"
    point := { lat := .num 1, lon := .num 0, hae := 10, ce := 10, le := 10 } }

/-- A distinct position report for uid "u" with the same observation time
t = 5 but lat 2. -/
def cotTieB : CotEvent :=
  { uid := some "u", type := some "a-f-G", time := .num 5, start := .num 5
    stale := .num 9, how := some "m-g"
    point := { lat := .num 2, lon := .num 0, hae := 10, ce := 10, le := 10 } }

/-- An older report for uid "w" (t = 3). -/
def cotOldW : CotEvent :=
  { uid := some "w", type := some "a-f-G", time := .num 3, start := .num 3
    stale := .num 9, how := some "m-g"
    point := { lat := .num 1, lon := .num 0, hae := 10, ce := 10, le := 10 } }

/-- A newer report for uid "w" (t = 7). -/
def cotNewW : CotEvent :=
  { uid := some "w", type := some "a-f-G", time := .num 7, start := .num 7
    stale := .num 9, how := some "m-g"
    point := { lat := .num 4, lon := .num 0, hae := 10, ce := 10, le := 10 } }

/-- A raw event whose lat attribute is present but geographically invalid
(999, far outside [-90, 90]). -/
def rawBadLat : RawCotEvent :=
  { uid := some "X1", type := some "a-f-G", time := some 0, start := some 0
    stale := some 60000, how := some "m-g"
    point := { lat := some 999, lon := some 0, hae := some 100
               ce := some 10, le := some 10 } }

/-- A raw event reporting a genuine altitude of 0 with an absent ce
attribute. -/
def rawZeroHae : RawCotEvent :=
  { uid := some "X2", type := some "a-f-G", time := some 0, start := some 0
    stale := some 60000, how := some "m-g"
    point := { lat := some 10, lon := some 20, hae := some 0
               ce := none, le := some 5 } }

/-- Three track positions 5 minutes apart (times in milliseconds). -/
def trackStop3 : List TrackPos :=
  [{ time := 0, lat := 0, lon := 0 },
   { time := 300000, lat := 0, lon := 0 },
   { time := 600000, lat := 0, lon := 0 }]

/-- The same track with a fourth, distant point 5 minutes later. -/
def trackStop4 : List TrackPos :=
  trackStop3 ++ [{ time := 900000, lat := 1, lon := 1 }]

/-- Segment metric for the stop scenario: each consecutive hop among the
first three points measures 49 m (about 50 m apart), the final hop 1000 m. -/
def c8dist : TrackPos → TrackPos → ℚ :=
  fun p _ => if p.time ≤ 300000 then 49 else 1000

/-- A three-point track at 100-second spacing (times in milliseconds). -/
def c9track : List TrackPos :=
  [{ time := 0, lat := 0, lon := 0 },
   { time := 100000, lat := 0, lon := 0 },
   { time := 200000, lat := 0, lon := 0 }]

/-- Segment metric with a sharp speed spike on the second hop: 1000 m then
100000 m over 100 s each (36 km/h then 3600 km/h). -/
def c9dist : TrackPos → TrackPos → ℚ :=
  fun p _ => if p.time = 0 then 1000 else 100000

/-- A constant bearing metric for the pattern pass. -/
def c9brg : TrackPos → TrackPos → ℚ := fun _ _ => 0

/-! ## Helper lemmas about the entity map -/

/-- An upsert leaves every key other than the event's uid unchanged. -/
lemma upsertEntity_ne (m : Option String → Option CotEvent) (e : CotEvent)
    (k : Option String) (hk : k ≠ e.uid) : upsertEntity m e k = m k := by
  unfold upsertEntity
  rcases hm : m e.uid with _ | s
  · simp [hk]
  · by_cases h : jsNumLt s.time e.time <;> simp [h, hk]

/-- With no stored event under the key, the upsert stores the event. -/
lemma upsertEntity_key_store (m : Option String → Option CotEvent) (a : CotEvent)
    (hm : m a.uid = none) : upsertEntity m a a.uid = some a := by
  unfold upsertEntity
  rw [hm]
  simp

/-- With a strictly older stored event, the upsert replaces it. -/
lemma upsertEntity_key_replace (m : Option String → Option CotEvent)
    (a s : CotEvent) (hm : m a.uid = some s)
    (h : jsNumLt s.time a.time = true) : upsertEntity m a a.uid = some a := by
  unfold upsertEntity
  rw [hm]
  simp [h]

/-- With a stored event that is not strictly older, the upsert keeps it. -/
lemma upsertEntity_key_keep (m : Option String → Option CotEvent)
    (a s : CotEvent) (hm : m a.uid = some s)
    (h : jsNumLt s.time a.time = false) : upsertEntity m a a.uid = some s := by
  unfold upsertEntity
  rw [hm]
  simp [h]
  exact hm

/-- Core invariant of the `getEntities` dedup loop: if a report `r` with
numeric time `tr` is among the remaining events or already stored, and every
other event for its uid is strictly older, the loop ends with `r` stored. -/
lemma foldl_upsert_reaches (r : CotEvent) (tr : ℚ) (hr : r.time = JSNum.num tr) :
    ∀ (l : List CotEvent) (m : Option String → Option CotEvent),
      (∀ s ∈ l, s.uid = r.uid → s = r ∨ ∃ ts, s.time = JSNum.num ts ∧ ts < tr) →
      (m r.uid = some r ∨
        (r ∈ l ∧ (m r.uid = none ∨
          ∃ s ts, m r.uid = some s ∧ s.time = JSNum.num ts ∧ ts < tr))) →
      List.foldl upsertEntity m l r.uid = some r := by
  intro l
  induction l with
  | nil =>
      intro m _ hinv
      rcases hinv with h | ⟨hmem, _⟩
      · simpa using h
      · simp at hmem
  | cons a t ih =>
      intro m hall hinv
      simp only [List.foldl_cons]
      apply ih
      · intro s hs hsu
        exact hall s (List.mem_cons_of_mem a hs) hsu
      · by_cases hau : a.uid = r.uid
        · have ha := hall a (List.mem_cons_self a t) hau
          have hkey : upsertEntity m a r.uid = upsertEntity m a a.uid := by rw [hau]
          rcases hm : m r.uid with _ | s
          · -- nothing stored yet: the upsert stores a
            have hm2 : m a.uid = none := by rw [hau]; exact hm
            have hnew : upsertEntity m a r.uid = some a :=
              hkey.trans (upsertEntity_key_store m a hm2)
            rcases hinv with hmr | ⟨hmem, _⟩
            · rw [hm] at hmr; cases hmr
            · rcases ha with haR | ⟨ta, hta, hlta⟩
              · left; rw [hnew, haR]
              · have hne : r ≠ a := by
                  intro hcontra
                  rw [← hcontra, hr] at hta
                  exact absurd (JSNum.num.inj hta ▸ hlta) (lt_irrefl tr)
                right
                exact ⟨(List.mem_cons.mp hmem).resolve_left hne,
                  Or.inr ⟨a, ta, hnew, hta, hlta⟩⟩
          · have hm2 : m a.uid = some s := by rw [hau]; exact hm
            rcases hinv with hmr | ⟨hmem, hrest⟩
            · -- the stored event is already r: nothing can displace it
              have hsr : s = r := by
                rw [hm] at hmr; exact Option.some_injective _ hmr
              left
              rcases ha with haR | ⟨ta, hta, hlta⟩
              · have hlt : jsNumLt s.time a.time = false := by
                  rw [hsr, haR, hr]; simp [jsNumLt]
                rw [hkey, upsertEntity_key_keep m a s hm2 hlt, hsr]
              · have hlt : jsNumLt s.time a.time = false := by
                  rw [hsr, hr, hta]; simp [jsNumLt, not_lt.mpr hlta.le]
                rw [hkey, upsertEntity_key_keep m a s hm2 hlt, hsr]
            · -- an older event is stored
              rcases hrest with hmnone | ⟨s2, ts2, hms2, hts2, hlts2⟩
              · rw [hm] at hmnone; cases hmnone
              · have hs2 : s2 = s := by
                  rw [hm] at hms2; exact (Option.some_injective _ hms2).symm
                have hts : s.time = JSNum.num ts2 := hs2 ▸ hts2
                rcases ha with haR | ⟨ta, hta, hlta⟩
                · -- the head is r itself: it replaces the older event
                  left
                  have hlt : jsNumLt s.time a.time = true := by
                    rw [hts, haR, hr]; simp [jsNumLt, hlts2]
                  rw [hkey, upsertEntity_key_replace m a s hm2 hlt, haR]
                · -- the head is another strictly older event for the uid
                  have hne : r ≠ a := by
                    intro hcontra
                    rw [← hcontra, hr] at hta
                    exact absurd (JSNum.num.inj hta ▸ hlta) (lt_irrefl tr)
                  right
                  refine ⟨(List.mem_cons.mp hmem).resolve_left hne, Or.inr ?_⟩
                  by_cases hlt : jsNumLt s.time a.time = true
                  · exact ⟨a, ta, hkey.trans (upsertEntity_key_replace m a s hm2 hlt),
                      hta, hlta⟩
                  · exact ⟨s, ts2,
                      hkey.trans (upsertEntity_key_keep m a s hm2
                        (Bool.not_eq_true _ ▸ eq_false_of_ne_true hlt)),
                      hts, hlts2⟩
        · have hkeep : upsertEntity m a r.uid = m r.uid :=
            upsertEntity_ne m a r.uid (fun h => hau h.symm)
          rcases hinv with hmr | ⟨hmem, hrest⟩
          · left; rw [hkeep]; exact hmr
          · have hne : r ≠ a := fun h => hau (h ▸ rfl)
            exact Or.inr ⟨(List.mem_cons.mp hmem).resolve_left hne, hkeep ▸ hrest⟩

/-! ## C1: entity state reconciliation -/

/-- C1 (counterexample): two distinct reports for the same uid carrying the
same observation time are resolved first-wins by `getEntities` (strictly
newer replaces, equal is dropped), so the final state depends on delivery
order: delivering tieA then tieB keeps tieA, the reverse order keeps tieB.
The claimed order-independence for arbitrary report sequences is false. -/
theorem c1_counterexample :
    entitiesMapOf [cotTieA, cotTieB] (some "u") = some cotTieA ∧
    entitiesMapOf [cotTieB, cotTieA] (some "u") = some cotTieB ∧
    cotTieA ≠ cotTieB := by
  decide

/-- C1 (amended): a report replaces the stored state iff none exists or it
is strictly newer; consequently, whenever one report for the uid is strictly
newer than every other report for that uid in the delivered sequence
(duplicates of it allowed), the final state for that uid is that report, in
whatever order and multiplicity the sequence delivers them. Order
independence holds under that uniqueness proviso; on ties the
first-delivered report wins. -/
theorem c1_latest_report_wins (l : List CotEvent) (r : CotEvent) (tr : ℚ)
    (hr : r.time = JSNum.num tr) (hmem : r ∈ l)
    (hmax : ∀ s ∈ l, s.uid = r.uid →
      s = r ∨ ∃ ts, s.time = JSNum.num ts ∧ ts < tr) :
    entitiesMapOf l r.uid = some r :=
  foldl_upsert_reaches r tr hr l (fun _ => none) hmax
    (Or.inr ⟨hmem, Or.inl rfl⟩)

/-- C1 witness: on a concrete out-of-order delivery (newest first, then an
older report) the map ends at the newest report. -/
theorem c1_witness :
    entitiesMapOf [cotNewW, cotOldW, cotNewW] cotNewW.uid = some cotNewW := by
  apply c1_latest_report_wins [cotNewW, cotOldW, cotNewW] cotNewW 7 rfl
  · exact List.mem_cons_self _ _
  · intro s hs _
    rcases List.mem_cons.mp hs with rfl | hs2
    · exact Or.inl rfl
    · rcases List.mem_cons.mp hs2 with rfl | hs3
      · exact Or.inr ⟨3, rfl, by norm_num⟩
      · rcases List.mem_cons.mp hs3 with rfl | hs4
        · exact Or.inl rfl
        · simp at hs4

/-! ## C3: event normalization produces no typed failure -/

/-- C3 (counterexample): `parseCotEvent` performs no validation: an event
whose lat attribute is 999 (far outside [-90, 90]) is normalized into an
ordinary report carrying lat 999 - an invalid report produced as a success
value, with no typed failure anywhere in the transform. -/
theorem c3_counterexample :
    (parseCotEvent rawBadLat).point.lat = JSNum.num 999 ∧
    (90 : ℚ) < 999 ∧
    (parseCotEvent rawBadLat).uid = some "X1" := by
  decide

/-- C3 (amended): normalization is total and unvalidated: every raw event
yields a report (there is no failure channel), missing lat/lon surface as
NaN, present values - geographically valid or not - pass through unchanged,
and the id passes through even when absent. -/
theorem c3_no_validation (e : RawCotEvent) :
    (parseCotEvent e).uid = e.uid ∧
    (e.point.lat = none → (parseCotEvent e).point.lat = JSNum.nan) ∧
    (∀ q, e.point.lat = some q → (parseCotEvent e).point.lat = JSNum.num q) ∧
    (∀ q, e.point.lon = some q → (parseCotEvent e).point.lon = JSNum.num q) := by
  refine ⟨rfl, ?_, ?_, ?_⟩
  · intro h; simp [parseCotEvent, parseFloatAttr, h]
  · intro q h; simp [parseCotEvent, parseFloatAttr, h]
  · intro q h; simp [parseCotEvent, parseFloatAttr, h]

/-- C3 witness: the amended theorem applied to the concrete invalid raw
event. -/
theorem c3_witness :
    (parseCotEvent rawBadLat).uid = rawBadLat.uid ∧
    (parseCotEvent rawBadLat).point.lat = JSNum.num 999 ∧
    (parseCotEvent rawBadLat).point.lon = JSNum.num 0 := by
  obtain ⟨h1, _, h3, h4⟩ := c3_no_validation rawBadLat
  exact ⟨h1, h3 999 rfl, h4 0 rfl⟩

/-! ## C4: unknown-sentinel handling -/

/-- C4 (counterexample): a report with a genuine altitude of 0 is coerced to
the magic 999999 by `parseFloat(hae) || 999999` and then surfaced as unknown
(`alt: undefined`) by the entity transform, conflating zero with unknown;
an absent ce stays the concrete number 999999 on the report, observable
downstream. -/
theorem c4_counterexample :
    (parseCotEvent rawZeroHae).point.hae = 999999 ∧
    entityAlt (parseCotEvent rawZeroHae).point.hae = none ∧
    (parseCotEvent rawZeroHae).point.ce = 999999 := by
  decide

/-- C4 (amended): absent and zero hae/ce/le are coerced to the magic number
999999 on the parsed report; the entity transform maps a sentinel hae to an
explicit unknown altitude but passes ce through as the concrete 999999, and
only a nonzero, non-sentinel altitude survives to the entity unchanged. -/
theorem c4_sentinel_conflation (e : RawCotEvent) :
    (∀ q, e.point.hae = some q → q ≠ 0 → q ≠ 999999 →
      (parseCotEvent e).point.hae = q ∧
      entityAlt (parseCotEvent e).point.hae = some q) ∧
    (e.point.hae = some 0 → (parseCotEvent e).point.hae = 999999 ∧
      entityAlt (parseCotEvent e).point.hae = none) ∧
    (e.point.hae = none → (parseCotEvent e).point.hae = 999999) ∧
    (e.point.ce = none → (parseCotEvent e).point.ce = 999999) := by
  refine ⟨?_, ?_, ?_, ?_⟩
  · intro q h hq0 hq9
    constructor
    · simp [parseCotEvent, parseFloatAttr, jsOrNum, h, hq0]
    · simp [parseCotEvent, parseFloatAttr, jsOrNum, entityAlt, h, hq0, hq9]
  · intro h
    constructor
    · simp [parseCotEvent, parseFloatAttr, jsOrNum, h]
    · simp [parseCotEvent, parseFloatAttr, jsOrNum, entityAlt, h]
  · intro h; simp [parseCotEvent, parseFloatAttr, jsOrNum, h]
  · intro h; simp [parseCotEvent, parseFloatAttr, jsOrNum, h]

/-- C4 witness: the amended theorem applied at concrete events - a 100 m
altitude survives, a 0 altitude becomes the sentinel and reads as unknown,
an absent ce becomes 999999. -/
theorem c4_witness :
    ((parseCotEvent rawBadLat).point.hae = 100 ∧
      entityAlt (parseCotEvent rawBadLat).point.hae = some 100) ∧
    ((parseCotEvent rawZeroHae).point.hae = 999999 ∧
      entityAlt (parseCotEvent rawZeroHae).point.hae = none) ∧
    (parseCotEvent rawZeroHae).point.ce = 999999 := by
  obtain ⟨h1, _, _, _⟩ := c4_sentinel_conflation rawBadLat
  obtain ⟨_, g2, _, g4⟩ := c4_sentinel_conflation rawZeroHae
  exact ⟨h1 100 rfl (by norm_num) (by norm_num), g2 rfl, g4 rfl⟩

/-! ## C6: geofence shape validation -/

/-- C6: the handler's degenerate-shape checks are JS falsiness tests, so a
circle with the negative radius -5 and a rectangle with width -10 pass
validation and create a geofence, while radius 0 (falsy) is rejected with
the missing-field error. This contradicts the declared input schema
(`minimum: 0`) and the documented rejection of degenerate shapes: the
failing inputs are the negative-dimension requests, which the code accepts
silently. -/
theorem c6_negative_shape_accepted :
    createGeofenceShapeCheck
      { type := .circle, center := some (0, 0), radius := some (-5)
        vertices := none, width := none, height := none } = .ok () ∧
    createGeofenceShapeCheck
      { type := .rectangle, center := some (0, 0), radius := none
        vertices := none, width := some (-10), height := some 20 } = .ok () ∧
    createGeofenceShapeCheck
      { type := .circle, center := some (0, 0), radius := some 0
        vertices := none, width := none, height := none } =
      .error "Circle geofence requires center and radius" ∧
    createGeofenceShapeCheck
      { type := .polygon, center := none, radius := none
        vertices := some [(0, 0), (0, 1)], width := none, height := none } =
      .error "Polygon geofence requires at least 3 vertices" := by
  refine ⟨?_, ?_, ?_, ?_⟩ <;> rfl

/-! ## C8: stop detection drops an open trailing candidate -/

/-- C8: on the spec's own scenario - three points five minutes apart, each
about 50 m (here 49 m) from the previous - the stop loop opens a candidate
covering the whole window but never promotes it, because a candidate still
open when the track ends is discarded with the loop: the analysis reports
zero stops instead of the claimed one. Appending a fourth, distant point
makes the very same candidate terminate and be reported as the single stop
spanning the original window, which localizes the defect to the missing
end-of-track flush. -/
theorem c8_open_stop_never_reported :
    (stopsPass c8dist trackStop3).totalStops = 0 ∧
    (stopsPass c8dist trackStop3).stops = [] ∧
    (stopsPass c8dist trackStop4).totalStops = 1 ∧
    (stopsPass c8dist trackStop4).stops =
      [{ startTime := 0, endTime := 600000, duration := 600
         centerLon := 0, centerLat := 0 }] := by
  norm_num [stopsPass, stopsLoop, consecutivePairs, c8dist, trackStop3,
    trackStop4, stopRecordOf, turfCenterOf, ratMin, ratMax]

/-! ## C9: independence of the analysis passes -/

/-- The speed field of the analysis object depends only on the speed
selection flag. -/
lemma analyzeMovement_speedAnalysis (dist brg : TrackPos → TrackPos → ℚ)
    (sel : List AnalysisType) (th : ℚ) (positions : List TrackPos) :
    (analyzeMovement dist brg sel th positions).speedAnalysis =
      if sel.contains .speed then some (speedPass dist positions) else none := by
  simp only [analyzeMovement]
  cases hs : sel.contains AnalysisType.speed <;>
    cases hp : sel.contains AnalysisType.pattern <;>
      cases hst : sel.contains AnalysisType.stops <;>
        cases ha : sel.contains AnalysisType.anomaly <;>
          simp [hs, hp, hst, ha]

/-- The pattern field depends only on the pattern selection flag. -/
lemma analyzeMovement_patternAnalysis (dist brg : TrackPos → TrackPos → ℚ)
    (sel : List AnalysisType) (th : ℚ) (positions : List TrackPos) :
    (analyzeMovement dist brg sel th positions).patternAnalysis =
      if sel.contains .pattern then some (patternPass dist brg positions)
      else none := by
  simp only [analyzeMovement]
  cases hs : sel.contains AnalysisType.speed <;>
    cases hp : sel.contains AnalysisType.pattern <;>
      cases hst : sel.contains AnalysisType.stops <;>
        cases ha : sel.contains AnalysisType.anomaly <;>
          simp [hs, hp, hst, ha]

/-- The stop field depends only on the stops selection flag. -/
lemma analyzeMovement_stopAnalysis (dist brg : TrackPos → TrackPos → ℚ)
    (sel : List AnalysisType) (th : ℚ) (positions : List TrackPos) :
    (analyzeMovement dist brg sel th positions).stopAnalysis =
      if sel.contains .stops then some (stopsPass dist positions) else none := by
  simp only [analyzeMovement]
  cases hs : sel.contains AnalysisType.speed <;>
    cases hp : sel.contains AnalysisType.pattern <;>
      cases hst : sel.contains AnalysisType.stops <;>
        cases ha : sel.contains AnalysisType.anomaly <;>
          simp [hs, hp, hst, ha]

/-- The anomaly field depends on the anomaly flag and, through the shared
analysis object, on the speed flag. -/
lemma analyzeMovement_anomalyAnalysis (dist brg : TrackPos → TrackPos → ℚ)
    (sel : List AnalysisType) (th : ℚ) (positions : List TrackPos) :
    (analyzeMovement dist brg sel th positions).anomalyAnalysis =
      if sel.contains .anomaly then
        some (anomalyPass dist
          (if sel.contains .speed then some (speedPass dist positions) else none)
          th positions)
      else none := by
  simp only [analyzeMovement]
  cases hs : sel.contains AnalysisType.speed <;>
    cases hp : sel.contains AnalysisType.pattern <;>
      cases hst : sel.contains AnalysisType.stops <;>
        cases ha : sel.contains AnalysisType.anomaly <;>
          simp [hs, hp, hst, ha]

/-- C9 (counterexample): selecting only the anomaly analysis yields an empty
anomaly report on a track with a blatant speed spike, while selecting speed
together with anomaly flags the spike - the anomaly pass reads the speed
pass's output from the shared analysis object, so its result depends on
which other passes were requested. The claimed independence is false. -/
theorem c9_counterexample :
    (analyzeMovement c9dist c9brg [AnalysisType.anomaly] (8/10)
        c9track).anomalyAnalysis ≠
    (analyzeMovement c9dist c9brg [AnalysisType.speed, AnalysisType.anomaly]
        (8/10) c9track).anomalyAnalysis := by
  rw [analyzeMovement_anomalyAnalysis, analyzeMovement_anomalyAnalysis]
  show some (anomalyPass c9dist none (8/10) c9track) ≠
    some (anomalyPass c9dist (some (speedPass c9dist c9track)) (8/10) c9track)
  have hsp : speedPass c9dist c9track =
      { averageSpeed := 1818, maxSpeed := 3600, minSpeed := 36
        totalDistance := 101000 } := by
    norm_num [speedPass, speedSteps, consecutivePairs, c9dist, c9track,
      ratMin, ratMax]
  have hL : anomalyPass c9dist none (8/10) c9track =
      { anomalies := [], totalAnomalies := 0 } := rfl
  have hR : anomalyPass c9dist
      (some { averageSpeed := 1818, maxSpeed := 3600, minSpeed := 36
              totalDistance := 101000 }) (8/10) c9track =
      { anomalies := [{ time := 200000, value := 3600, threshold := 16362/5 }]
        totalAnomalies := 1 } := by
    norm_num [anomalyPass, anomalySweep, consecutivePairs, c9dist, c9track]
  rw [hsp, hL, hR]
  simp

/-- C9 (amended): the speed, pattern and stop passes are independent - each
is a pure function of the track and its own selection flag. The anomaly
pass is pure but not independent: its result is determined by the track,
its own flag and the speed flag, and whenever the speed analysis is not
also selected it degenerates to an empty report. -/
theorem c9_pass_dependencies (dist brg : TrackPos → TrackPos → ℚ) (th : ℚ)
    (positions : List TrackPos) (sel1 sel2 : List AnalysisType) :
    (sel1.contains .speed = sel2.contains .speed →
      (analyzeMovement dist brg sel1 th positions).speedAnalysis =
        (analyzeMovement dist brg sel2 th positions).speedAnalysis) ∧
    (sel1.contains .pattern = sel2.contains .pattern →
      (analyzeMovement dist brg sel1 th positions).patternAnalysis =
        (analyzeMovement dist brg sel2 th positions).patternAnalysis) ∧
    (sel1.contains .stops = sel2.contains .stops →
      (analyzeMovement dist brg sel1 th positions).stopAnalysis =
        (analyzeMovement dist brg sel2 th positions).stopAnalysis) ∧
    (sel1.contains .speed = sel2.contains .speed →
      sel1.contains .anomaly = sel2.contains .anomaly →
      (analyzeMovement dist brg sel1 th positions).anomalyAnalysis =
        (analyzeMovement dist brg sel2 th positions).anomalyAnalysis) ∧
    (sel1.contains .anomaly = true → sel1.contains .speed = false →
      (analyzeMovement dist brg sel1 th positions).anomalyAnalysis =
        some { anomalies := [], totalAnomalies := 0 }) := by
  refine ⟨?_, ?_, ?_, ?_, ?_⟩
  · intro h
    rw [analyzeMovement_speedAnalysis, analyzeMovement_speedAnalysis, h]
  · intro h
    rw [analyzeMovement_patternAnalysis, analyzeMovement_patternAnalysis, h]
  · intro h
    rw [analyzeMovement_stopAnalysis, analyzeMovement_stopAnalysis, h]
  · intro h1 h2
    rw [analyzeMovement_anomalyAnalysis, analyzeMovement_anomalyAnalysis, h1, h2]
  · intro h1 h2
    rw [analyzeMovement_anomalyAnalysis, h1, h2]
    simp [anomalyPass]

/-- C9 witness: the amended theorem at concrete selections - the speed
result is unchanged by dropping the anomaly selection, and the anomaly pass
alone reports nothing on the spiking track. -/
theorem c9_witness :
    (analyzeMovement c9dist c9brg [AnalysisType.speed, AnalysisType.anomaly]
        (8/10) c9track).speedAnalysis =
      (analyzeMovement c9dist c9brg [AnalysisType.speed] (8/10)
        c9track).speedAnalysis ∧
    (analyzeMovement c9dist c9brg [AnalysisType.anomaly] (8/10)
        c9track).anomalyAnalysis =
      some { anomalies := [], totalAnomalies := 0 } := by
  obtain ⟨h1, _, _, _, _⟩ := c9_pass_dependencies c9dist c9brg (8/10) c9track
    [AnalysisType.speed, AnalysisType.anomaly] [AnalysisType.speed]
  obtain ⟨_, _, _, _, g5⟩ := c9_pass_dependencies c9dist c9brg (8/10) c9track
    [AnalysisType.anomaly] [AnalysisType.anomaly]
  exact ⟨h1 rfl, g5 rfl rfl⟩

/-! ## C2 and C10: the nearest-entity pipeline -/

/-- Membership in an insertion is membership in the inserted element or the
original run. -/
lemma mem_insertByDistance (x a : NearItem) (l : List NearItem) :
    a ∈ insertByDistance x l ↔ a = x ∨ a ∈ l := by
  induction l with
  | nil => simp [insertByDistance]
  | cons y ys ih =>
      by_cases h : y.distance ≤ x.distance
      · simp only [insertByDistance, if_pos h, List.mem_cons, ih]
        tauto
      · simp only [insertByDistance, if_neg h, List.mem_cons]

/-- Insertion preserves sortedness by rounded distance. -/
lemma pairwise_insertByDistance (x : NearItem) (l : List NearItem)
    (h : l.Pairwise (fun a b => a.distance ≤ b.distance)) :
    (insertByDistance x l).Pairwise (fun a b => a.distance ≤ b.distance) := by
  induction l with
  | nil => simp [insertByDistance]
  | cons y ys ih =>
      rcases List.pairwise_cons.mp h with ⟨hy, hys⟩
      by_cases hle : y.distance ≤ x.distance
      · rw [insertByDistance, if_pos hle]
        refine List.pairwise_cons.mpr ⟨?_, ih hys⟩
        intro b hb
        rcases (mem_insertByDistance x b ys).mp hb with rfl | hbys
        · exact hle
        · exact hy b hbys
      · rw [insertByDistance, if_neg hle]
        refine List.pairwise_cons.mpr ⟨?_, h⟩
        intro b hb
        rcases List.mem_cons.mp hb with rfl | hbys
        · exact le_of_not_le hle
        · exact le_trans (le_of_not_le hle) (hy b hbys)

/-- The sorted pipeline stage produces a run sorted by rounded distance. -/
lemma sortByDistance_pairwise (l : List NearItem) :
    (sortByDistance l).Pairwise (fun a b => a.distance ≤ b.distance) := by
  have main : ∀ (t acc : List NearItem),
      acc.Pairwise (fun a b => a.distance ≤ b.distance) →
      (t.foldl (fun acc x => insertByDistance x acc) acc).Pairwise
        (fun a b => a.distance ≤ b.distance) := by
    intro t
    induction t with
    | nil => intro acc h; simpa using h
    | cons x xs ih =>
        intro acc h
        simpa using ih (insertByDistance x acc) (pairwise_insertByDistance x acc h)
  simpa [sortByDistance] using main l [] (by simp)

/-- The sort stage neither adds nor removes rows. -/
lemma mem_sortByDistance (a : NearItem) (l : List NearItem) :
    a ∈ sortByDistance l ↔ a ∈ l := by
  have main : ∀ (t acc : List NearItem),
      a ∈ t.foldl (fun acc x => insertByDistance x acc) acc ↔ a ∈ acc ∨ a ∈ t := by
    intro t
    induction t with
    | nil => intro acc; simp
    | cons x xs ih =>
        intro acc
        simp only [List.foldl_cons, ih (insertByDistance x acc),
          mem_insertByDistance, List.mem_cons]
        tauto
  simpa [sortByDistance] using main l []

/-- C2 (counterexample): on two equidistant entities delivered with the
lexicographically larger uid first, the pipeline with maxResults 1 returns
"bravo", not the smaller "alpha" - the sort has no identifier tie-break, so
order among equal rounded distances is the entity-list order. -/
theorem c2_counterexample :
    findNearestResults (fun _ => (100 : ℚ)) (fun _ => 0) none (some 1)
      [{ uid := "bravo", lat := 0, lon := 1 }, { uid := "alpha", lat := 0, lon := 2 }] =
      [{ uid := "bravo", distance := 100, bearing := 0 }] ∧
    ("alpha" : String) < "bravo" := by
  constructor
  · norm_num [findNearestResults, withDistances, filterByMaxDistance,
      sortByDistance, insertByDistance, nearItemOf, jsOrNat, jsRound]
  · rw [String.lt_iff_toList_lt]
    decide

/-- C2 (amended): the pipeline sorts ascending by rounded distance,
truncates to maxResults, and filters to the (truthy) maxDistance cutoff;
ties on equal rounded distance are broken by position in the entity list
(JS sort is stable), not by entity identifier, so a maxResults=1 query over
two equidistant entities deterministically returns the one listed first. -/
theorem c2_nearest_sorted (d brg : NearEntity → ℚ) (maxD : Option ℚ)
    (maxR : Option ℕ) (es : List NearEntity) :
    (findNearestResults d brg maxD maxR es).Pairwise
      (fun a b => a.distance ≤ b.distance) ∧
    (findNearestResults d brg maxD maxR es).length ≤ jsOrNat maxR 10 ∧
    (∀ md, maxD = some md → md ≠ 0 →
      ∀ i ∈ findNearestResults d brg maxD maxR es, (i.distance : ℚ) ≤ md) ∧
    (∀ e1 e2, jsRound (d e1) = jsRound (d e2) →
      findNearestResults d brg none (some 1) [e1, e2] = [nearItemOf d brg e1]) := by
  refine ⟨?_, ?_, ?_, ?_⟩
  · exact List.Pairwise.sublist (List.take_sublist _ _) (sortByDistance_pairwise _)
  · simp only [findNearestResults]
    exact List.length_take_le _ _
  · intro md hmd hne i hi
    have h2 := List.take_subset _ _ hi
    rw [mem_sortByDistance, hmd, filterByMaxDistance, if_neg hne] at h2
    have h3 := List.mem_filter.mp h2
    simpa using h3.2
  · intro e1 e2 h
    show (sortByDistance (filterByMaxDistance none
      (withDistances d brg [e1, e2]))).take (jsOrNat (some 1) 10) =
      [nearItemOf d brg e1]
    simp [withDistances, filterByMaxDistance, sortByDistance, insertByDistance,
      jsOrNat, nearItemOf, h]

/-- C2 witness: the amended theorem at a concrete equidistant pair and a
concrete cutoff query. -/
theorem c2_witness :
    ((nearItemOf (fun _ => (100 : ℚ)) (fun _ => 0)
        { uid := "alpha", lat := 0, lon := 0 }).distance : ℚ) ≤ 150 ∧
    findNearestResults (fun _ => (100 : ℚ)) (fun _ => 0) none (some 1)
      [{ uid := "alpha", lat := 0, lon := 0 }, { uid := "bravo", lat := 0, lon := 0 }] =
      [nearItemOf (fun _ => (100 : ℚ)) (fun _ => 0)
        { uid := "alpha", lat := 0, lon := 0 }] := by
  obtain ⟨_, _, h3, h4⟩ := c2_nearest_sorted (fun _ => (100 : ℚ)) (fun _ => 0)
    (some 150) (some 5) [{ uid := "alpha", lat := 0, lon := 0 }]
  refine ⟨h3 150 rfl (by norm_num) _ ?_,
    h4 { uid := "alpha", lat := 0, lon := 0 } { uid := "bravo", lat := 0, lon := 0 } rfl⟩
  norm_num [findNearestResults, withDistances, filterByMaxDistance,
    sortByDistance, insertByDistance, nearItemOf, jsOrNat, jsRound]

/-- C10 (counterexample): with the non-integer cutoff maxDistance = 100.4 m,
an entity at exact distance 100.6 m - exceeding the cutoff by only 0.2 m,
less than half a meter - is excluded, because its distance first rounds up
to 101: the claimed sub-half-meter overshoot inclusion fails for
non-integer cutoffs. -/
theorem c10_counterexample :
    findNearestResults (fun _ => (1006/10 : ℚ)) (fun _ => 0) (some (1004/10))
      (some 10) [{ uid := "alpha", lat := 0, lon := 0 }] = [] ∧
    (1004/10 : ℚ) < 1006/10 ∧ (1006/10 : ℚ) - 1004/10 < 1/2 := by
  refine ⟨?_, by norm_num, by norm_num⟩
  norm_num [findNearestResults, withDistances, filterByMaxDistance,
    sortByDistance, insertByDistance, nearItemOf, jsOrNat, jsRound]

/-- C10 (amended): each row carries Math.round of the exact distance and
bearing, the maxDistance cutoff compares that rounded integer, an entity
whose exact distance exceeds an integer cutoff by less than 0.5 m is still
included, and exact distances less than a meter apart (100.3 and 100.4)
round to the same integer and so compare as equal in the sort. -/
theorem c10_rounding (d brg : NearEntity → ℚ) (e : NearEntity) (m : ℤ) :
    (nearItemOf d brg e).distance = jsRound (d e) ∧
    (nearItemOf d brg e).bearing = jsRound (brg e) ∧
    ((m : ℚ) ≠ 0 → (m : ℚ) < d e → d e < (m : ℚ) + 1/2 →
      nearItemOf d brg e ∈ filterByMaxDistance (some (m : ℚ))
        (withDistances d brg [e])) ∧
    (jsRound (1003/10 : ℚ) = jsRound (1004/10 : ℚ) ∧
      (1003/10 : ℚ) ≠ 1004/10 ∧ |(1004/10 : ℚ) - 1003/10| < 1) := by
  refine ⟨rfl, rfl, ?_, ?_, by norm_num, by rw [abs_sub_lt_iff]; norm_num⟩
  · intro hne hlt hlt2
    have hle : jsRound (d e) ≤ m := by
      have hfl : ⌊d e + 1/2⌋ < m + 1 := by
        rw [Int.floor_lt]
        push_cast
        linarith
      exact Int.lt_add_one_iff.mp hfl
    rw [filterByMaxDistance, if_neg hne]
    refine List.mem_filter.mpr ⟨by simp [withDistances], ?_⟩
    simpa [nearItemOf] using (Int.cast_le.mpr hle : ((jsRound (d e) : ℚ)) ≤ (m : ℚ))
  · norm_num [jsRound]

/-- C10 witness: the amended theorem at the concrete exact distance 100.3 m
against the integer cutoff 100 m: the row rounds to 100 and survives the
cutoff despite its exact distance exceeding it. -/
theorem c10_witness :
    (nearItemOf (fun _ => (1003/10 : ℚ)) (fun _ => 0)
      { uid := "alpha", lat := 0, lon := 0 }).distance = jsRound (1003/10 : ℚ) ∧
    nearItemOf (fun _ => (1003/10 : ℚ)) (fun _ => 0)
        { uid := "alpha", lat := 0, lon := 0 } ∈
      filterByMaxDistance (some ((100 : ℤ) : ℚ))
        (withDistances (fun _ => (1003/10 : ℚ)) (fun _ => 0)
          [{ uid := "alpha", lat := 0, lon := 0 }]) := by
  obtain ⟨h1, _, h3, _⟩ := c10_rounding (fun _ => (1003/10 : ℚ)) (fun _ => 0)
    { uid := "alpha", lat := 0, lon := 0 } 100
  exact ⟨h1, h3 (by norm_num) (by norm_num) (by norm_num)⟩

/-! ## C5: geofence transition sequences -/

/-- Invariant of the spec-modelled machine: starting from any state whose
dwell flag is cleared while outside, the emitted trace is accepted by the
well-formedness scanner seeded with that state, provided the entry and exit
triggers are enabled. -/
lemma geofenceRun_wf (trig : GeofenceTriggers) (hE : trig.onEntry = true)
    (hX : trig.onExit = true) :
    ∀ (reps : List (Bool × ℚ)) (st : GeofenceEntityState),
      (st.inside = false → st.dwellFired = false) →
      wfGeofenceTrace st.inside (!st.dwellFired) (geofenceRun trig st reps).2
        = true := by
  intro reps
  induction reps with
  | nil => intro st _; simp [geofenceRun, wfGeofenceTrace]
  | cons r rs ih =>
      intro st hst
      obtain ⟨isIn, tm⟩ := r
      simp only [geofenceRun]
      cases isIn
      · cases hsti : st.inside
        · -- outside, stays outside: nothing emitted
          have h2 := ih st hst
          rw [hsti] at h2
          simpa [geofenceStep, hsti] using h2
        · -- inside, leaves: exit emitted
          have h2 := ih { inside := false, enteredAt := none, dwellFired := false }
            (fun _ => rfl)
          simpa [geofenceStep, hsti, hX, wfGeofenceTrace] using h2
      · cases hsti : st.inside
        · -- outside, enters: entry emitted
          have h2 := ih { inside := true, enteredAt := some tm, dwellFired := false }
            (fun h => by cases h)
          simpa [geofenceStep, hsti, hE, wfGeofenceTrace] using h2
        · -- inside, stays: possibly a dwell alert
          rcases hdw : trig.onDwell with _ | thr
          · have h2 := ih st hst
            rw [hsti] at h2
            simpa [geofenceStep, hsti, hdw] using h2
          · rcases hent : st.enteredAt with _ | t0
            · have h2 := ih st hst
              rw [hsti] at h2
              simpa [geofenceStep, hsti, hdw, hent] using h2
            · by_cases hfire : ¬ st.dwellFired ∧ thr ≤ tm - t0
              · have hdf : st.dwellFired = false := by
                  simpa using hfire.1
                have h2 := ih { st with dwellFired := true }
                  (fun h => by rw [hsti] at h; cases h)
                rw [hsti] at h2
                simpa [geofenceStep, hsti, hdw, hent, hfire, hdf,
                  wfGeofenceTrace] using h2
              · have hfire2 : ¬ (st.dwellFired = false ∧ thr ≤ tm - t0) := by
                  simpa using hfire
                have h2 := ih st hst
                rw [hsti] at h2
                simpa [geofenceStep, hsti, hdw, hent, hfire2] using h2

/-- C5 (counterexample): with the entry trigger disabled and the exit
trigger enabled - a configuration the schema allows - a report inside the
fence followed by one outside emits a bare exit alert with no preceding
entry, so the claimed entry/exit matching fails for such geofences. -/
theorem c5_counterexample :
    geofenceTrace { onEntry := false, onExit := true, onDwell := none }
      [(true, 0), (false, 1)] = [GeofenceEvent.exitZone] ∧
    wfGeofenceTrace false true
      (geofenceTrace { onEntry := false, onExit := true, onDwell := none }
        [(true, 0), (false, 1)]) = false := by
  constructor <;> rfl

/-- C5 (amended, spec-modelled): for every geofence whose entry and exit
triggers are both enabled (the schema defaults) and every report sequence
of a single entity, the emitted trace is well-formed: an exit alert only
ever follows an unmatched entry alert, and the dwell alert fires at most
once per continuous inside period. -/
theorem c5_transition_wellformed (trig : GeofenceTriggers)
    (reps : List (Bool × ℚ)) (hE : trig.onEntry = true)
    (hX : trig.onExit = true) :
    wfGeofenceTrace false true (geofenceTrace trig reps) = true := by
  have h := geofenceRun_wf trig hE hX reps geofenceInit (fun _ => rfl)
  simpa [geofenceTrace, geofenceInit] using h

/-- C5 witness: a concrete run - enter, dwell past the 60 s threshold,
linger, leave, re-enter - produces a well-formed trace. -/
theorem c5_witness :
    wfGeofenceTrace false true
      (geofenceTrace { onEntry := true, onExit := true, onDwell := some 60 }
        [(true, 0), (true, 30), (true, 70), (true, 90), (false, 120),
          (true, 150)]) = true :=
  c5_transition_wellformed
    { onEntry := true, onExit := true, onDwell := some 60 }
    [(true, 0), (true, 30), (true, 70), (true, 90), (false, 120), (true, 150)]
    rfl rfl

/-! ## C7: distance symmetry and bearings -/

/-- Math.trunc at 0. -/
lemma jsTruncR_zero : jsTruncR 0 = 0 := by
  simp [jsTruncR]

/-- Math.trunc is odd. -/
lemma jsTruncR_neg (r : ℝ) : jsTruncR (-r) = -(jsTruncR r) := by
  unfold jsTruncR
  rcases lt_trichotomy r 0 with h | rfl | h
  · rw [if_neg (not_le.mpr h), if_pos (by linarith : (0:ℝ) ≤ -r), Int.floor_neg]
  · simp
  · rw [if_pos h.le, if_neg (by simpa using h : ¬ (0:ℝ) ≤ -r), Int.ceil_neg]

/-- The JS remainder is odd in its first argument. -/
lemma jsModR_neg (x n : ℝ) : jsModR (-x) n = -(jsModR x n) := by
  unfold jsModR
  rw [neg_div, jsTruncR_neg]
  push_cast
  ring

/-- Math.trunc vanishes on (-1, 1). -/
lemma jsTruncR_eq_zero (r : ℝ) (h1 : -1 < r) (h2 : r < 1) : jsTruncR r = 0 := by
  unfold jsTruncR
  by_cases h : 0 ≤ r
  · rw [if_pos h]
    exact Int.floor_eq_zero_iff.mpr ⟨h, h2⟩
  · rw [if_neg h]
    exact Int.ceil_eq_zero_iff.mpr ⟨h1, (not_le.mp h).le⟩

/-- The JS remainder is the identity strictly inside (-n, n). -/
lemma jsModR_small (x n : ℝ) (hn : 0 < n) (h1 : -n < x) (h2 : x < n) :
    jsModR x n = x := by
  unfold jsModR
  rw [jsTruncR_eq_zero (x / n) (by rw [neg_lt, ← neg_div]; exact (div_lt_one hn).mpr (by linarith)) ((div_lt_one hn).mpr h2)]
  push_cast
  ring

/-- degreesToRadians at 0. -/
lemma degreesToRadians_zero : degreesToRadians 0 = 0 := by
  unfold degreesToRadians jsModR
  norm_num [jsTruncR_zero]

/-- degreesToRadians is odd. -/
lemma degreesToRadians_neg (d : ℝ) :
    degreesToRadians (-d) = -(degreesToRadians d) := by
  unfold degreesToRadians
  rw [jsModR_neg]
  ring

/-- On (-360, 360) degrees, the turf helper is the plain conversion. -/
lemma degreesToRadians_eq (d : ℝ) (h1 : -360 < d) (h2 : d < 360) :
    degreesToRadians d = d * Real.pi / 180 := by
  unfold degreesToRadians
  rw [jsModR_small d 360 (by norm_num) h1 h2]

/-- On radian values inside one full turn, the turf helper is the plain
conversion. -/
lemma radiansToDegrees_eq (t : ℝ) (h1 : -(2 * Real.pi) < t)
    (h2 : t < 2 * Real.pi) : radiansToDegrees t = t * 180 / Real.pi := by
  unfold radiansToDegrees
  rw [jsModR_small t (2 * Real.pi) (by positivity) h1 h2]

/-- The atan2 embedding lands in (-pi, pi]. -/
lemma mathAtan2_mem (y x : ℝ) :
    -Real.pi < mathAtan2 y x ∧ mathAtan2 y x ≤ Real.pi := by
  have hpi := Real.pi_pos
  have ha1 := Real.arctan_lt_pi_div_two (y / x)
  have ha2 := Real.neg_pi_div_two_lt_arctan (y / x)
  unfold mathAtan2
  by_cases hx : 0 < x
  · rw [if_pos hx]
    constructor <;> nlinarith
  · rw [if_neg hx]
    by_cases hx2 : x < 0
    · rw [if_pos hx2]
      by_cases hy : 0 ≤ y
      · rw [if_pos hy]
        have hyx : y / x ≤ 0 := by
          rw [div_nonpos_iff]
          left
          exact ⟨hy, hx2.le⟩
        have harc : Real.arctan (y / x) ≤ 0 :=
          (Real.arctan_strictMono.monotone hyx).trans_eq Real.arctan_zero
        constructor <;> nlinarith
      · rw [if_neg hy]
        have hyx : 0 < y / x := by
          rw [div_pos_iff]
          right
          exact ⟨not_le.mp hy, hx2⟩
        have harc : 0 < Real.arctan (y / x) := by
          rw [← Real.arctan_zero]
          exact Real.arctan_strictMono hyx
        constructor <;> nlinarith
    · rw [if_neg hx2]
      by_cases hy1 : 0 < y
      · rw [if_pos hy1]
        constructor <;> nlinarith
      · rw [if_neg hy1]
        by_cases hy2 : y < 0
        · rw [if_pos hy2]
          constructor <;> nlinarith
        · rw [if_neg hy2]
          constructor <;> nlinarith

/-- radiansToDegrees maps (-pi, pi] into (-180, 180]. -/
lemma radiansToDegrees_bounds (t : ℝ) (h1 : -Real.pi < t) (h2 : t ≤ Real.pi) :
    -180 < radiansToDegrees t ∧ radiansToDegrees t ≤ 180 := by
  have hpi := Real.pi_pos
  rw [radiansToDegrees_eq t (by nlinarith) (by nlinarith)]
  constructor
  · rw [lt_div_iff₀ hpi]
    nlinarith
  · rw [div_le_iff₀ hpi]
    nlinarith

/-- turf.bearing lands in (-180, 180]. -/
lemma turfBearing_bounds (p q : GeoPoint) :
    -180 < turfBearing p q ∧ turfBearing p q ≤ 180 := by
  simp only [turfBearing]
  exact radiansToDegrees_bounds _ (mathAtan2_mem _ _).1 (mathAtan2_mem _ _).2

/-- radiansToDegrees at pi/2. -/
lemma radToDeg_pi_div_two : radiansToDegrees (Real.pi / 2) = 90 := by
  have hpi := Real.pi_pos
  rw [radiansToDegrees_eq _ (by nlinarith) (by nlinarith),
    div_eq_iff (ne_of_gt hpi)]
  ring

/-- radiansToDegrees at -pi/2. -/
lemma radToDeg_neg_pi_div_two : radiansToDegrees (-(Real.pi / 2)) = -90 := by
  have hpi := Real.pi_pos
  rw [radiansToDegrees_eq _ (by nlinarith) (by nlinarith),
    div_eq_iff (ne_of_gt hpi)]
  ring

/-- radiansToDegrees at pi/4. -/
lemma radToDeg_pi_div_four : radiansToDegrees (Real.pi / 4) = 45 := by
  have hpi := Real.pi_pos
  rw [radiansToDegrees_eq _ (by nlinarith) (by nlinarith),
    div_eq_iff (ne_of_gt hpi)]
  ring

/-- degreesToRadians at 90. -/
lemma degToRad_ninety : degreesToRadians 90 = Real.pi / 2 := by
  rw [degreesToRadians_eq 90 (by norm_num) (by norm_num)]
  ring

/-- degreesToRadians at 45. -/
lemma degToRad_fortyfive : degreesToRadians 45 = Real.pi / 4 := by
  rw [degreesToRadians_eq 45 (by norm_num) (by norm_num)]
  ring

/-- The haversine argument of turf.distance is symmetric in its endpoints. -/
lemma turfDistance_symm_core (p q : GeoPoint) :
    Real.sin (degreesToRadians (p.lat - q.lat) / 2) ^ 2 +
      Real.sin (degreesToRadians (p.lon - q.lon) / 2) ^ 2 *
        Real.cos (degreesToRadians q.lat) * Real.cos (degreesToRadians p.lat) =
    Real.sin (degreesToRadians (q.lat - p.lat) / 2) ^ 2 +
      Real.sin (degreesToRadians (q.lon - p.lon) / 2) ^ 2 *
        Real.cos (degreesToRadians p.lat) * Real.cos (degreesToRadians q.lat) := by
  rw [show p.lat - q.lat = -(q.lat - p.lat) by ring,
    show p.lon - q.lon = -(q.lon - p.lon) by ring,
    degreesToRadians_neg, degreesToRadians_neg, neg_div, neg_div,
    Real.sin_neg, Real.sin_neg]
  ring

/-- Between two equator points, turf.bearing reduces to the atan2 of the
longitude-difference sine against 0. -/
lemma turfBearing_equator (p q : GeoPoint) (hp : p.lat = 0) (hq : q.lat = 0) :
    turfBearing p q = radiansToDegrees (mathAtan2
      (Real.sin (degreesToRadians q.lon - degreesToRadians p.lon)) 0) := by
  simp only [turfBearing, hp, hq, degreesToRadians_zero, Real.sin_zero,
    Real.cos_zero]
  norm_num

/-- C7 (amended): turf.distance is symmetric; the reported back-bearing is
(bearing + 180) reduced mod 360 into [0, 360); and the forward bearings of
the two directions differ by 180 degrees modulo 360 between equator points
(the relation the spec asserts for all point pairs holds there, but fails
off the equator, see the counterexample). -/
theorem c7_distance_bearing (p q : GeoPoint) :
    turfDistanceMeters p q = turfDistanceMeters q p ∧
    backBearing p q = (turfBearing p q + 180) -
      360 * ⌊(turfBearing p q + 180) / 360⌋ ∧
    (p.lat = 0 → q.lat = 0 →
      Real.sin (degreesToRadians q.lon - degreesToRadians p.lon) ≠ 0 →
      ∃ k : ℤ, turfBearing q p - turfBearing p q = 180 + 360 * (k : ℝ)) := by
  refine ⟨?_, ?_, ?_⟩
  · simp only [turfDistanceMeters]
    rw [turfDistance_symm_core p q]
  · have hb := (turfBearing_bounds p q).1
    unfold backBearing jsModR jsTruncR
    rw [if_pos (div_nonneg (by linarith) (by norm_num : (0:ℝ) ≤ 360))]
  · intro hp hq hs
    have k1 := turfBearing_equator p q hp hq
    have k2 := turfBearing_equator q p hq hp
    rw [show degreesToRadians p.lon - degreesToRadians q.lon =
      -(degreesToRadians q.lon - degreesToRadians p.lon) by ring,
      Real.sin_neg] at k2
    rcases hs.lt_or_lt with hneg | hpos
    · have e1 : mathAtan2
          (Real.sin (degreesToRadians q.lon - degreesToRadians p.lon)) 0 =
          -(Real.pi / 2) := by
        unfold mathAtan2
        rw [if_neg (lt_irrefl (0:ℝ)), if_neg (lt_irrefl (0:ℝ)),
          if_neg (not_lt.mpr hneg.le), if_pos hneg]
      have e2 : mathAtan2
          (-(Real.sin (degreesToRadians q.lon - degreesToRadians p.lon))) 0 =
          Real.pi / 2 := by
        unfold mathAtan2
        rw [if_neg (lt_irrefl (0:ℝ)), if_neg (lt_irrefl (0:ℝ)),
          if_pos (neg_pos.mpr hneg)]
      rw [k1, k2, e1, e2, radToDeg_pi_div_two, radToDeg_neg_pi_div_two]
      exact ⟨0, by norm_num⟩
    · have e1 : mathAtan2
          (Real.sin (degreesToRadians q.lon - degreesToRadians p.lon)) 0 =
          Real.pi / 2 := by
        unfold mathAtan2
        rw [if_neg (lt_irrefl (0:ℝ)), if_neg (lt_irrefl (0:ℝ)), if_pos hpos]
      have e2 : mathAtan2
          (-(Real.sin (degreesToRadians q.lon - degreesToRadians p.lon))) 0 =
          -(Real.pi / 2) := by
        unfold mathAtan2
        rw [if_neg (lt_irrefl (0:ℝ)), if_neg (lt_irrefl (0:ℝ)),
          if_neg (not_lt.mpr (neg_nonpos.mpr hpos.le)),
          if_pos (neg_lt_zero.mpr hpos)]
      rw [k1, k2, e1, e2, radToDeg_pi_div_two, radToDeg_neg_pi_div_two]
      refine ⟨-1, by push_cast; norm_num⟩

/-- The forward bearing from the origin to (lat 45, lon 90). -/
lemma c7aux_forward :
    turfBearing { lat := 0, lon := 0 } { lat := 45, lon := 90 } = 45 := by
  have h1 : turfBearing { lat := 0, lon := 0 } { lat := 45, lon := 90 } =
      radiansToDegrees (mathAtan2 (Real.sqrt 2 / 2) (Real.sqrt 2 / 2)) := by
    simp only [turfBearing, degreesToRadians_zero, degToRad_ninety,
      degToRad_fortyfive, sub_zero, Real.sin_pi_div_two, Real.cos_pi_div_two,
      Real.sin_pi_div_four, Real.cos_pi_div_four, Real.sin_zero, Real.cos_zero]
    norm_num
  rw [h1]
  have hpos : (0:ℝ) < Real.sqrt 2 / 2 := by positivity
  unfold mathAtan2
  rw [if_pos hpos, div_self (ne_of_gt hpos), Real.arctan_one]
  exact radToDeg_pi_div_four

/-- The forward bearing back from (lat 45, lon 90) to the origin. -/
lemma c7aux_reverse :
    turfBearing { lat := 45, lon := 90 } { lat := 0, lon := 0 } = -90 := by
  have h1 : turfBearing { lat := 45, lon := 90 } { lat := 0, lon := 0 } =
      radiansToDegrees (mathAtan2 (-1) 0) := by
    simp only [turfBearing, degreesToRadians_zero, degToRad_ninety,
      degToRad_fortyfive, zero_sub, Real.sin_neg, Real.cos_neg,
      Real.sin_pi_div_two, Real.cos_pi_div_two, Real.sin_zero, Real.cos_zero,
      Real.sin_pi_div_four, Real.cos_pi_div_four]
    norm_num
  rw [h1]
  unfold mathAtan2
  rw [if_neg (lt_irrefl (0:ℝ)), if_neg (lt_irrefl (0:ℝ)),
    if_neg (by norm_num : ¬ (0:ℝ) < -1), if_pos (by norm_num : (-1:ℝ) < 0)]
  exact radToDeg_neg_pi_div_two

/-- C7 (counterexample): between the origin and (lat 45, lon 90) the two
forward azimuths are 45 and -90 degrees, whose difference -135 is not 180
modulo 360: on a sphere the reverse bearing is not the forward bearing
plus 180 in general, refuting that conjunct of the claim. -/
theorem c7_counterexample :
    turfBearing { lat := 0, lon := 0 } { lat := 45, lon := 90 } = 45 ∧
    turfBearing { lat := 45, lon := 90 } { lat := 0, lon := 0 } = -90 ∧
    ∀ k : ℤ, turfBearing { lat := 45, lon := 90 } { lat := 0, lon := 0 } -
        turfBearing { lat := 0, lon := 0 } { lat := 45, lon := 90 } ≠
      180 + 360 * (k : ℝ) := by
  refine ⟨c7aux_forward, c7aux_reverse, ?_⟩
  intro k
  rw [c7aux_forward, c7aux_reverse]
  intro h
  have h3 : ((360 * k : ℤ) : ℝ) = ((-315 : ℤ) : ℝ) := by push_cast; linarith
  have h4 : (360 * k : ℤ) = -315 := Int.cast_injective h3
  omega

/-- C7 witness: the amended theorem at the equator pair (0, 0) and (0, 90):
distance symmetry, the back-bearing identity, and reverse bearing equal to
the forward bearing plus 180 modulo 360. -/
theorem c7_witness :
    turfDistanceMeters { lat := 0, lon := 0 } { lat := 0, lon := 90 } =
      turfDistanceMeters { lat := 0, lon := 90 } { lat := 0, lon := 0 } ∧
    backBearing { lat := 0, lon := 0 } { lat := 0, lon := 90 } =
      (turfBearing { lat := 0, lon := 0 } { lat := 0, lon := 90 } + 180) -
        360 * ⌊(turfBearing { lat := 0, lon := 0 } { lat := 0, lon := 90 }
          + 180) / 360⌋ ∧
    ∃ k : ℤ, turfBearing { lat := 0, lon := 90 } { lat := 0, lon := 0 } -
        turfBearing { lat := 0, lon := 0 } { lat := 0, lon := 90 } =
      180 + 360 * (k : ℝ) := by
  obtain ⟨h1, h2, h3⟩ := c7_distance_bearing
    { lat := 0, lon := 0 } { lat := 0, lon := 90 }
  refine ⟨h1, h2, h3 rfl rfl ?_⟩
  rw [degreesToRadians_zero, degToRad_ninety, sub_zero, Real.sin_pi_div_two]
  norm_num
